import Mathlib

/-!
# Verification of the AI GRC compliance platform (backend)

A shallow embedding, in Lean 4, of the pure computational core of the
`backend/app` Python package: PHI detection (`logs/phi_detector.py`),
anomaly scoring (`logs/anomaly_model.py`), risk synthesis and the RAG
pipeline (`rag/rag_pipeline.py`), the vector store (`rag/vector_store.py`),
LLM JSON extraction (`utils/json_extract.py`), audit-report assembly
(`rag/audit_report.py`) and the event-evaluation route
(`routes/grc_routes.py`).

Modelling conventions:
* Python floats are modelled as exact rationals (`ℚ`); `round(x, n)` is
  modelled as decimal rounding with ties to even, Python's documented
  behaviour (`pyRound`).
* Texts are ASCII: `str.lower`, `\w`, `\d`, `\s` are modelled on their
  ASCII fragments, which covers every text the repository manipulates.
* `re.findall(p, t)` is used by the code only through its truthiness, so a
  pattern is embedded as the decidable predicate "`p` matches somewhere in
  `t`", including `\b` word-boundary and greedy/backtracking behaviour.
* External effects (the SentenceTransformer embedder, the Ollama HTTP call,
  the database) are parameters of the embedded functions; raised Python
  exceptions are `Except.error` values, and an uncaught exception is an
  `Except.error` result of the caller (monadic propagation).
-/

namespace GRC

/-! ## Numeric basics: `clamp` (rag_pipeline.py) and Python `round` -/

/-- `clamp(v, lo, hi) = max(lo, min(hi, v))` from `rag_pipeline.py`;
`score_event` in `anomaly_model.py` uses the same `max(0.0, min(100.0, _))`
shape. -/
def clampQ (v lo hi : ℚ) : ℚ := max lo (min hi v)

/-- Python's `round` to an integer: nearest integer, ties to even. -/
def pyRound (x : ℚ) : ℤ :=
  if x - (⌊x⌋ : ℚ) < 1/2 then ⌊x⌋
  else if 1/2 < x - (⌊x⌋ : ℚ) then ⌊x⌋ + 1
  else if ⌊x⌋ % 2 = 0 then ⌊x⌋ else ⌊x⌋ + 1

/-- Python's `round(x, 2)`. -/
def round2 (x : ℚ) : ℚ := (pyRound (x * 100) : ℚ) / 100

/-- Python's `round(x, 3)`. -/
def round3 (x : ℚ) : ℚ := (pyRound (x * 1000) : ℚ) / 1000

/-! ## ASCII text helpers (`str.lower`, `str.strip`, `in`) -/

/-- Python `\w` on ASCII: letters, digits, underscore. -/
def isWordC (c : Char) : Bool := c.isAlphanum || c = '_'

/-- Python `\s` on ASCII: space, tab, newline, carriage return, vertical
tab, form feed. `str.strip()` strips the same set. -/
def isSpaceC (c : Char) : Bool :=
  c = ' ' || c = '\t' || c = '\n' || c = '\r' || c = '\x0b' || c = '\x0c'

/-- `str.lower()` on ASCII. -/
def pyLower (l : List Char) : List Char := l.map Char.toLower

/-- `str.strip()`. -/
def pystrip (l : List Char) : List Char :=
  ((l.dropWhile isSpaceC).reverse.dropWhile isSpaceC).reverse

def startsWithB : List Char → List Char → Bool
  | [], _ => true
  | _ :: _, [] => false
  | p :: ps, c :: cs => p = c && startsWithB ps cs

/-- Python's `pat in text` substring test. -/
def containsB (pat : List Char) : List Char → Bool
  | [] => startsWithB pat []
  | c :: cs => startsWithB pat (c :: cs) || containsB pat cs

/-! ## PHI detector (`logs/phi_detector.py`)

Each compiled pattern is embedded as the decidable predicate "the pattern
matches somewhere in the text", which is exactly how `detect_phi` consumes
`findall` (truthiness of the match list). The `\b` assertions and the
greedy/backtracking behaviour of the quantifiers are reproduced; the
embedding was differentially tested against CPython `re` on the pattern
suite. -/

/-- `\b` between `prev` (the char before the match position, `none` at the
start of the text) and the first matched char `c`: exactly one side is a
word char. -/
def boundaryB (prev : Option Char) (c : Char) : Bool :=
  match prev with
  | none => isWordC c
  | some p => isWordC p != isWordC c

/-- `\b` after a match that ends in a word char: next char absent or
non-word. -/
def endB : List Char → Bool
  | [] => true
  | c :: _ => !(isWordC c)

/-- Consume exactly `n` digits (`\d{n}`). -/
def takeDigitsN : ℕ → List Char → Option (List Char)
  | 0, cs => some cs
  | _ + 1, [] => none
  | n + 1, c :: cs => if c.isDigit then takeDigitsN n cs else none

/-- Length of the leading digit run, and the rest. -/
def digitRun : List Char → ℕ × List Char
  | [] => (0, [])
  | c :: cs =>
    if c.isDigit then
      let p := digitRun cs
      (p.1 + 1, p.2)
    else (0, c :: cs)

/-- `SSN_RE = \b\d{3}-\d{2}-\d{4}\b` matches at this position (the leading
`\b` is checked by the scanner). -/
def ssnAt (cs : List Char) : Bool :=
  match takeDigitsN 3 cs with
  | some ('-' :: r1) =>
    match takeDigitsN 2 r1 with
    | some ('-' :: r2) =>
      match takeDigitsN 4 r2 with
      | some r3 => endB r3
      | none => false
    | _ => false
  | _ => false

/-- Generic scanner: does `hit prev suffix` hold at some position of the
text? (`findall` returns a non-empty list iff some position matches.) -/
def scanB (hit : Option Char → List Char → Bool) : Option Char → List Char → Bool
  | _, [] => false
  | prev, c :: cs => hit prev (c :: cs) || scanB hit (some c) cs

def ssnFound (text : List Char) : Bool :=
  scanB (fun prev cs =>
    match cs with
    | c :: _ => boundaryB prev c && ssnAt cs
    | [] => false) none text

/-- `MRN_RE = \bMRN[:\s-]*\d{5,12}\b` (IGNORECASE) matches here. The
separator class contains no digit, so only its maximal expansion can be
followed by `\d`; a digit run longer than 12 leaves a digit after every
backtrack of `\d{5,12}`, so the trailing `\b` then always fails. -/
def mrnAt (cs : List Char) : Bool :=
  match cs with
  | m :: r :: n :: rest =>
    if m.toLower = 'm' && r.toLower = 'r' && n.toLower = 'n' then
      let rest2 := rest.dropWhile (fun c => c = ':' || isSpaceC c || c = '-')
      let p := digitRun rest2
      decide (5 ≤ p.1) && decide (p.1 ≤ 12) && endB p.2
    else false
  | _ => false

def mrnFound (text : List Char) : Bool :=
  scanB (fun prev cs =>
    match cs with
    | c :: _ => boundaryB prev c && mrnAt cs
    | [] => false) none text

/-- The separator class of `DOB_RE = \b(?:\d{1,2}[/\-]\d{1,2}[/\-]\d{2,4})\b`. -/
def dobSep (c : Char) : Bool := c = '/' || c = '-'

/-- Final `\d{2,4}\b`: some expansion of 2..4 digits followed by a
boundary. -/
def dobEnd (cs : List Char) : Bool :=
  (match takeDigitsN 4 cs with | some r => endB r | none => false) ||
  (match takeDigitsN 3 cs with | some r => endB r | none => false) ||
  (match takeDigitsN 2 cs with | some r => endB r | none => false)

/-- Middle `\d{1,2}[/\-]` then the tail. -/
def dobMid (cs : List Char) : Bool :=
  (match takeDigitsN 2 cs with
   | some (s :: r) => dobSep s && dobEnd r
   | _ => false) ||
  (match takeDigitsN 1 cs with
   | some (s :: r) => dobSep s && dobEnd r
   | _ => false)

def dobAt (cs : List Char) : Bool :=
  (match takeDigitsN 2 cs with
   | some (s :: r) => dobSep s && dobMid r
   | _ => false) ||
  (match takeDigitsN 1 cs with
   | some (s :: r) => dobSep s && dobMid r
   | _ => false)

def dobFound (text : List Char) : Bool :=
  scanB (fun prev cs =>
    match cs with
    | c :: _ => boundaryB prev c && dobAt cs
    | [] => false) none text

/-- The separator class of
`PHONE_RE = \b(?:\+1[-.\s]?)?(?:\(\d{3}\)|\d{3})[-.\s]?\d{3}[-.\s]?\d{4}\b`. -/
def phSep (c : Char) : Bool := c = '-' || c = '.' || isSpaceC c

/-- `\d{4}\b` -/
def phend (cs : List Char) : Bool :=
  match takeDigitsN 4 cs with
  | some r => endB r
  | none => false

/-- `[-.\s]?\d{4}\b` -/
def phPart3 (cs : List Char) : Bool :=
  phend cs ||
  (match cs with
   | c :: r => phSep c && phend r
   | [] => false)

/-- `\d{3}[-.\s]?\d{4}\b` -/
def phPart2 (cs : List Char) : Bool :=
  match takeDigitsN 3 cs with
  | some r => phPart3 r
  | none => false

/-- `[-.\s]?\d{3}[-.\s]?\d{4}\b` -/
def phCont (cs : List Char) : Bool :=
  phPart2 cs ||
  (match cs with
   | c :: r => phSep c && phPart2 r
   | [] => false)

/-- `(?:\(\d{3}\)|\d{3})` then the tail. -/
def phCore (cs : List Char) : Bool :=
  (match cs with
   | '(' :: r =>
     match takeDigitsN 3 r with
     | some (')' :: r2) => phCont r2
     | _ => false
   | _ => false) ||
  (match takeDigitsN 3 cs with
   | some r => phCont r
   | none => false)

/-- Both alternatives of the optional `\+1[-.\s]?` prefix, with the
pattern's leading `\b` checked against the first char actually consumed. -/
def phoneHit (prev : Option Char) (cs : List Char) : Bool :=
  (match cs with
   | '+' :: '1' :: r =>
     boundaryB prev '+' && (phCore r ||
       (match r with
        | c :: r2 => phSep c && phCore r2
        | [] => false))
   | _ => false) ||
  (match cs with
   | c :: _ => boundaryB prev c && phCore cs
   | [] => false)

def phoneFound (text : List Char) : Bool := scanB phoneHit none text

/-- Local-part class of
`EMAIL_RE = \b[A-Z0-9._%+-]+@[A-Z0-9.-]+\.[A-Z]{2,}\b` (IGNORECASE). -/
def emailLocalC (c : Char) : Bool :=
  c.isAlphanum || c = '.' || c = '_' || c = '%' || c = '+' || c = '-'

/-- Domain class `[A-Z0-9.-]`. -/
def emailDomC (c : Char) : Bool := c.isAlphanum || c = '.' || c = '-'

/-- `[A-Z]{2,}\b` after the final dot: only the maximal letter run can
satisfy the boundary (shorter greedy backtracks end before a letter, a
word char). -/
def tldOk (cs : List Char) : Bool :=
  let p := cs.span Char.isAlpha
  decide (2 ≤ p.1.length) && endB p.2

/-- `[A-Z0-9.-]+\.[A-Z]{2,}\b` after the `@`; `k` counts domain chars
consumed before the candidate dot. -/
def emailDomain : List Char → ℕ → Bool
  | [], _ => false
  | c :: rest, k =>
    if c = '.' && decide (1 ≤ k) && tldOk rest then true
    else if emailDomC c then emailDomain rest (k + 1)
    else false

/-- The local part `[..]+` can only stop where `@` stands, i.e. at the end
of its maximal run, since `@` is not in the class. -/
def emailHit (prev : Option Char) (cs : List Char) : Bool :=
  match cs with
  | c :: _ =>
    boundaryB prev c && emailLocalC c &&
      (let p := cs.span emailLocalC
       match p.2 with
       | '@' :: dom => emailDomain dom 0
       | _ => false)
  | [] => false

def emailFound (text : List Char) : Bool := scanB emailHit none text

/-- `PHI_KEYWORDS` from `phi_detector.py`, in source order. -/
def PHI_KEYWORDS : List String :=
  ["patient", "diagnosis", "treatment", "lab", "prescription", "rx",
   "insurance", "medical record", "mrn", "ssn", "dob", "address"]

/-- The matches dict of `detect_phi` (the field is renamed because its
Python name is a Lean keyword); each `findall` list is modelled by
its truthiness (non-emptiness), the only way the code reads it. -/
structure PhiMatches where
  email : Bool
  phone : Bool
  ssn : Bool
  dob : Bool
  mrn : Bool
deriving Repr, DecidableEq

/-- The result dict of `detect_phi`. -/
structure PhiResult where
  has_phi : Bool
  sensitivity : ℕ
  matchesDict : PhiMatches
  keyword_hits : List String
deriving Repr, DecidableEq

/-- `detect_phi(text)` from `logs/phi_detector.py`. -/
def detectPhi (text : List Char) : PhiResult :=
  let md : PhiMatches :=
    ⟨emailFound text, phoneFound text, ssnFound text, dobFound text, mrnFound text⟩
  let keyword_hits := PHI_KEYWORDS.filter (fun k => containsB k.toList (pyLower text))
  let has_pattern := md.email || md.phone || md.ssn || md.dob || md.mrn
  let has_keywords := !keyword_hits.isEmpty
  let sensitivity : ℕ :=
    if md.ssn || md.mrn then 5
    else if has_pattern then 4
    else if has_keywords then 3
    else 1
  { has_phi := has_pattern || has_keywords
    sensitivity := sensitivity
    matchesDict := md
    keyword_hits := keyword_hits }

/-! ## Risk synthesis (`rag/rag_pipeline.py`) -/

/-- `RiskInputs` dataclass. The code does not constrain the ranges; the
comments document severity, sensitivity, frequency in 1..5 and confidence
in 0..1. -/
structure RiskInputs where
  severity : ℤ
  sensitivity : ℤ
  frequency : ℤ
  confidence : ℚ
deriving Repr, DecidableEq

/-- `compute_confidence(retrieved)`: mean of the top-3 scores, clamped to
[0, 1]; 0.0 on an empty list. -/
def computeConfidence (retrieved : List (String × ℚ)) : ℚ :=
  match retrieved with
  | [] => 0
  | _ =>
    let tops := (retrieved.take 3).map (fun p => p.2)
    clampQ ((tops.foldl (· + ·) 0) / (tops.length : ℚ)) 0 1

/-- `infer_risk_inputs(question, confidence)`. -/
def inferRiskInputs (question : String) (confidence : ℚ) : RiskInputs :=
  let q := pyLower question.toList
  let sensitivity : ℤ :=
    if containsB "phi".toList q || containsB "protected health information".toList q ||
        containsB "hipaa".toList q then 5 else 3
  let severity0 : ℤ := if containsB "log".toList q || containsB "logs".toList q then 4 else 3
  let severity : ℤ :=
    if containsB "store".toList q &&
        (containsB "phi".toList q || containsB "protected health information".toList q)
    then 5 else severity0
  { severity := severity, sensitivity := sensitivity, frequency := 3, confidence := confidence }

/-- The inner `level(score)` of `compute_risk_score`. -/
def levelOf (score : ℚ) : String :=
  if score ≥ 75 then "Critical"
  else if score ≥ 50 then "High"
  else if score ≥ 25 then "Medium"
  else "Low"

/-- One `{"score": ..., "level": ...}` entry. -/
structure ScoreLevel where
  score : ℚ
  level : String
deriving Repr, DecidableEq

/-- The dict returned by `compute_risk_score` (the `inputs` echo keeps the
rounded confidence, `round(confidence, 3)`). -/
structure RiskResult where
  compliance_risk : ScoreLevel
  review_priority : ScoreLevel
  inputs : RiskInputs
deriving Repr, DecidableEq

/-- `compute_risk_score(inputs)` from `rag/rag_pipeline.py`. -/
def computeRiskScore (i : RiskInputs) : RiskResult :=
  let base : ℚ := ((i.severity : ℚ)) * ((i.sensitivity : ℚ)) * ((i.frequency : ℚ))
  let compliance_risk := clampQ (base / 125 * 100) 0 100
  let review_priority := clampQ ((1 - clampQ i.confidence 0 1) * 100) 0 100
  { compliance_risk := { score := round2 compliance_risk, level := levelOf compliance_risk }
    review_priority := { score := round2 review_priority, level := levelOf review_priority }
    inputs := { severity := i.severity, sensitivity := i.sensitivity,
                frequency := i.frequency, confidence := round3 i.confidence } }

/-! ## Anomaly model (`logs/anomaly_model.py`)

The trained IsolationForest is external state produced by scikit-learn; it
is modelled as the pair of functions `score_event` actually calls on it:
`decision_function` (a normality scalar) and `predict` (1 normal, -1
anomalous), both on a single feature vector. -/

structure AnomModel where
  decision : List ℚ → ℚ
  predict : List ℚ → ℤ

/-- `EventFeatures` dataclass (`hour` may be any `int(...)` result, e.g.
from a malformed timestamp slice). -/
structure EventFeatures where
  hour : ℤ
  msg_len : ℕ
  has_phi : ℕ
  sensitivity : ℕ
deriving Repr, DecidableEq

/-- Python `int(s)` as a partial function: optional sign around a digit
run, surrounding whitespace allowed; anything else raises. -/
def pyIntOpt (cs : List Char) : Option ℤ :=
  let t := pystrip cs
  let core : List Char → Option ℤ := fun ds =>
    if ds.isEmpty || !(ds.all Char.isDigit) then none
    else some (ds.foldl (fun acc c => acc * 10 + ((c.toNat : ℤ) - 48)) 0)
  match t with
  | '-' :: ds => (core ds).map (fun v => -v)
  | '+' :: ds => core ds
  | ds => core ds

/-- The event dict, holding the keys the code reads (a missing key is
`none`). -/
structure Event where
  message : Option String
  action : Option String
  timestamp : Option String
deriving Repr, DecidableEq

/-- `featurize(event, phi)`: `int(ts[11:13])` with fallback 12, message
plus action length, PHI flag and sensitivity. -/
def featurize (ev : Event) (phi : PhiResult) : EventFeatures :=
  let ts := (ev.timestamp.getD "").toList
  let hour : ℤ :=
    match pyIntOpt ((ts.drop 11).take 2) with
    | some h => h
    | none => 12
  let msg := (ev.message.getD "") ++ " " ++ (ev.action.getD "")
  { hour := hour
    msg_len := msg.length
    has_phi := if phi.has_phi then 1 else 0
    sensitivity := phi.sensitivity }

/-- `to_vector(f)`. -/
def toVector (f : EventFeatures) : List ℚ :=
  [(f.hour : ℚ), (f.msg_len : ℚ), (f.has_phi : ℚ), (f.sensitivity : ℚ)]

/-- The dict returned by `score_event` (and, with `none` fields, the
fallback dict built by `evaluate_event` when no model is trained). -/
structure AnomalyOut where
  is_anomaly : Bool
  normality : Option ℚ
  anomaly_score : Option ℚ
deriving Repr, DecidableEq

/-- The `anomaly_score` mapping of `score_event`:
`round(max(0.0, min(100.0, (0.5 - normality) * 100.0)), 2)`. -/
def anomalyScoreOf (normality : ℚ) : ℚ :=
  round2 (clampQ ((1/2 - normality) * 100) 0 100)

/-- `score_event(model, vec)` from `logs/anomaly_model.py`. -/
def scoreEvent (m : AnomModel) (vec : List ℚ) : AnomalyOut :=
  let normality := m.decision vec
  let pred := m.predict vec
  { is_anomaly := pred = -1
    normality := some normality
    anomaly_score := some (anomalyScoreOf normality) }

/-! ## Vector store (`rag/vector_store.py`)

`faiss.IndexFlatIP` over exact rationals: the index is the list of stored
vectors; `search` scores every stored vector by inner product with the
query and returns the `top_k` best, ties resolved by insertion order
(stable descending sort). Byte-level serialization (`faiss.write_index`,
`pickle`) is modelled as storing the structures themselves, which is the
lossless round-trip those libraries provide. -/

structure FaissStore where
  dim : ℕ
  index : List (List ℚ)
  chunks : List String
deriving Repr, DecidableEq

/-- A 2-d `numpy` float matrix: `shape = (rows.length, w)`; numpy arrays
cannot be ragged, hence the uniformity field. -/
structure NpMat where
  w : ℕ
  rows : List (List ℚ)
  uniform : rows.all (fun r => r.length = w) = true

/-- Inner product of two equal-length vectors. -/
def ipQ (a b : List ℚ) : ℚ := ((a.zip b).map (fun p => p.1 * p.2)).foldl (· + ·) 0

/-- `FaissStore.add`: raises `ValueError` on an embedding-width mismatch
(before touching any state), otherwise appends rows to the index and
extends the chunk list. (`ndim != 2` is unrepresentable in the matrix
model; the chunk count is NOT validated by the code.) -/
def faissAdd (st : FaissStore) (embeddings : NpMat) (chunks : List String) :
    Except String FaissStore :=
  if embeddings.w ≠ st.dim then
    .error "Embeddings must be shape (n, dim)"
  else
    .ok { st with index := st.index ++ embeddings.rows, chunks := st.chunks ++ chunks }

/-- Stable insertion (descending by score, earlier index wins ties). -/
def insertDesc (x : ℕ × ℚ) : List (ℕ × ℚ) → List (ℕ × ℚ)
  | [] => [x]
  | y :: ys => if y.2 ≥ x.2 then y :: insertDesc x ys else x :: y :: ys

/-- Stable descending sort by score. -/
def sortDesc (l : List (ℕ × ℚ)) : List (ℕ × ℚ) := l.foldr insertDesc []

/-- `FaissStore.search`: exact inner-product search, `top_k` best `(chunk,
score)` pairs in descending score order (fewer when the index holds fewer
vectors; the `-1` padding rows faiss emits in that case are skipped by the
code). Out-of-range chunk access (possible only on a store corrupted by a
mismatched `add`) is modelled by the empty string. -/
def faissSearch (st : FaissStore) (query : List ℚ) (top_k : ℕ) : List (String × ℚ) :=
  let scored := (st.index.map (fun v => ipQ query v)).enum
  let ranked := sortDesc scored
  (ranked.take top_k).map (fun p => ((st.chunks.getD p.1 ""), p.2))

/-- The pair of files written by `FaissStore.save`. -/
structure DiskState where
  indexFile : List (List ℚ)
  metaFile : List String
deriving Repr, DecidableEq

/-- `FaissStore.save`. -/
def faissSave (st : FaissStore) : DiskState :=
  { indexFile := st.index, metaFile := st.chunks }

/-- `FaissStore.load`: replaces `self.index` and `self.chunks` of the
receiving instance from disk. -/
def faissLoad (d : DiskState) (st : FaissStore) : FaissStore :=
  { st with index := d.indexFile, chunks := d.metaFile }

/-! ## Retrieval de-duplication (`answer_with_rag`, `rag/rag_pipeline.py`) -/

/-- The dedupe-and-truncate loop of `answer_with_rag`: keep the first
candidate of each stripped text, append before testing the size, break as
soon as `top_k` are kept. `kept` is the running `len(retrieved)`, `seen`
the set of stripped keys. -/
def dedupGo (top_k : ℕ) : ℕ → List (List Char) → List (String × ℚ) → List (String × ℚ)
  | _, _, [] => []
  | kept, seen, (c, s) :: rest =>
    if seen.contains (pystrip c.toList) then dedupGo top_k kept seen rest
    else if kept + 1 ≥ top_k then [(c, s)]
    else (c, s) :: dedupGo top_k (kept + 1) (pystrip c.toList :: seen) rest

/-- The retrieval step: query `3 * top_k` candidates, then dedupe and
truncate. -/
def dedupTake (top_k : ℕ) (raw : List (String × ℚ)) : List (String × ℚ) :=
  dedupGo top_k 0 [] raw

/-- `retrieved` as computed by `answer_with_rag` before prompt building:
`store.search(q_emb, top_k=top_k * 3)` deduplicated. `qvec` stands for the
normalized embedding of the question (`normalize(embedder.encode(...))`),
a parameter because the sentence-transformer is an external model. -/
def retrieveStep (st : FaissStore) (qvec : List ℚ) (top_k : ℕ) : List (String × ℚ) :=
  dedupTake top_k (faissSearch st qvec (top_k * 3))

/-! ## LLM JSON extraction (`utils/json_extract.py`)

Python `json.loads` is embedded as an exact recursive-descent parser over
the strict JSON grammar (numbers as exact rationals; the non-standard
`NaN/Infinity` constants, which have no rational value, are out of the
model).  Object members keep their textual order; duplicate keys are
resolved last-wins at lookup, as a Python dict does. -/

inductive Json where
  | null
  | bool (b : Bool)
  | num (q : ℚ)
  | str (s : String)
  | arr (elems : List Json)
  | obj (members : List (String × Json))
deriving Repr

/-- JSON whitespace (`json.decoder` skips exactly these). -/
def jsonWs (cs : List Char) : List Char :=
  cs.dropWhile (fun c => c = ' ' || c = '\t' || c = '\n' || c = '\r')

def hexVal (c : Char) : Option ℕ :=
  if c.isDigit then some (c.toNat - 48)
  else if 'a' ≤ c && c ≤ 'f' then some (c.toNat - 87)
  else if 'A' ≤ c && c ≤ 'F' then some (c.toNat - 55)
  else none

/-- JSON string body after the opening quote (strict mode: raw control
characters are rejected); surrogate pairs are not recombined. -/
def parseJStr : List Char → List Char → Except String (String × List Char)
  | _, [] => .error "Unterminated string"
  | acc, '"' :: rest => .ok (String.mk acc.reverse, rest)
  | acc, '\\' :: 'u' :: h1 :: h2 :: h3 :: h4 :: rest =>
    (match hexVal h1, hexVal h2, hexVal h3, hexVal h4 with
     | some a, some b, some c, some d =>
       parseJStr (Char.ofNat (((a * 16 + b) * 16 + c) * 16 + d) :: acc) rest
     | _, _, _, _ => .error "Invalid hex escape")
  | acc, '\\' :: e :: rest =>
    if e = '"' then parseJStr ('"' :: acc) rest
    else if e = '\\' then parseJStr ('\\' :: acc) rest
    else if e = '/' then parseJStr ('/' :: acc) rest
    else if e = 'b' then parseJStr ('\x08' :: acc) rest
    else if e = 'f' then parseJStr ('\x0c' :: acc) rest
    else if e = 'n' then parseJStr ('\n' :: acc) rest
    else if e = 'r' then parseJStr ('\r' :: acc) rest
    else if e = 't' then parseJStr ('\t' :: acc) rest
    else .error "Invalid escape"
  | _, ['\\'] => .error "Unterminated string"
  | acc, c :: rest =>
    if c.toNat < 32 then .error "Invalid control character"
    else parseJStr (c :: acc) rest

def digitsVal (ds : List Char) : ℕ :=
  ds.foldl (fun acc c => acc * 10 + (c.toNat - 48)) 0

/-- JSON number grammar `-?(0|[1-9]\d*)(\.\d+)?([eE][+-]?\d+)?`, exact. -/
def parseNumber (cs : List Char) : Except String (ℚ × List Char) :=
  let p : Bool × List Char := match cs with
    | '-' :: r => (true, r)
    | _ => (false, cs)
  match p.2 with
  | c :: _ =>
    if !c.isDigit then .error "Expecting value"
    else
      let ipart : ℕ × List Char :=
        if c = '0' then (0, p.2.drop 1)
        else
          let q := p.2.span Char.isDigit
          (digitsVal q.1, q.2)
      let fpart : ℚ × List Char :=
        match ipart.2 with
        | '.' :: d :: r =>
          if d.isDigit then
            let q := (d :: r).span Char.isDigit
            ((digitsVal q.1 : ℚ) / (10 : ℚ) ^ q.1.length, q.2)
          else (0, ipart.2)
        | _ => (0, ipart.2)
      let hasF : Bool := match ipart.2 with
        | '.' :: d :: _ => d.isDigit
        | _ => false
      let epart : Option (ℤ × List Char) :=
        match fpart.2 with
        | e :: r =>
          if e = 'e' || e = 'E' then
            let q : Bool × List Char := match r with
              | '-' :: r2 => (true, r2)
              | '+' :: r2 => (false, r2)
              | _ => (false, r)
            match q.2 with
            | d :: _ =>
              if d.isDigit then
                let w := q.2.span Char.isDigit
                some ((if q.1 then -(digitsVal w.1 : ℤ) else (digitsVal w.1 : ℤ)), w.2)
              else none
            | [] => none
          else none
        | [] => none
      let mant : ℚ := (ipart.1 : ℚ) + fpart.1
      let signed : ℚ := if p.1 then -mant else mant
      match epart with
      | some ev => .ok (signed * (10 : ℚ) ^ ev.1, ev.2)
      | none =>
        let _ := hasF
        .ok (signed, fpart.2)
  | [] => .error "Expecting value"

mutual

/-- One JSON value (strict `json.loads` grammar; the non-standard
`NaN/Infinity` constants, which have no rational value, are not modelled). -/
def parseVal : ℕ → List Char → Except String (Json × List Char)
  | 0, _ => .error "Nesting too deep"
  | fuel + 1, cs =>
    match jsonWs cs with
    | [] => .error "Expecting value"
    | 'n' :: 'u' :: 'l' :: 'l' :: r => .ok (.null, r)
    | 't' :: 'r' :: 'u' :: 'e' :: r => .ok (.bool true, r)
    | 'f' :: 'a' :: 'l' :: 's' :: 'e' :: r => .ok (.bool false, r)
    | '"' :: r => (parseJStr [] r).map (fun q => (.str q.1, q.2))
    | '\x7b' :: r =>
      (match jsonWs r with
       | '\x7d' :: r2 => .ok (.obj [], r2)
       | _ => parseMembers fuel r [])
    | '[' :: r =>
      (match jsonWs r with
       | ']' :: r2 => .ok (.arr [], r2)
       | _ => parseElems fuel r [])
    | other => (parseNumber other).map (fun q => (.num q.1, q.2))

/-- `"key": value` pairs, comma separated, up to `}`. -/
def parseMembers : ℕ → List Char → List (String × Json) →
    Except String (Json × List Char)
  | 0, _, _ => .error "Nesting too deep"
  | fuel + 1, cs, acc =>
    match jsonWs cs with
    | '"' :: r =>
      (match parseJStr [] r with
       | .error e => .error e
       | .ok (k, r2) =>
         match jsonWs r2 with
         | ':' :: r3 =>
           (match parseVal fuel r3 with
            | .error e => .error e
            | .ok (v, r4) =>
              match jsonWs r4 with
              | ',' :: r5 => parseMembers fuel r5 (acc ++ [(k, v)])
              | '\x7d' :: r5 => .ok (.obj (acc ++ [(k, v)]), r5)
              | _ => .error "Expecting comma delimiter")
         | _ => .error "Expecting colon delimiter")
    | _ => .error "Expecting property name"

/-- Array elements, comma separated, up to `]`. -/
def parseElems : ℕ → List Char → List Json → Except String (Json × List Char)
  | 0, _, _ => .error "Nesting too deep"
  | fuel + 1, cs, acc =>
    match parseVal fuel cs with
    | .error e => .error e
    | .ok (v, r) =>
      match jsonWs r with
      | ',' :: r2 => parseElems fuel r2 (acc ++ [v])
      | ']' :: r2 => .ok (.arr (acc ++ [v]), r2)
      | _ => .error "Expecting comma delimiter"

end

/-- `json.loads` (a full-string parse: trailing non-whitespace is "Extra
data"). -/
def jsonLoads (s : String) : Except String Json :=
  let cs := s.toList
  match parseVal (cs.length + 2) cs with
  | .error e => .error e
  | .ok (v, rest) =>
    if (jsonWs rest).isEmpty then .ok v else .error "Extra data"


def endsWithB (suf l : List Char) : Bool := startsWithB suf.reverse l.reverse

/-- `re.sub(r"^```[a-zA-Z0-9]*\s*", "", s)` when `s` starts with a fence. -/
def dropFenceHead (cs : List Char) : List Char :=
  ((cs.drop 3).dropWhile Char.isAlphanum).dropWhile isSpaceC

/-- `re.sub(r"\s*```$", "", s).strip()`: `$` matches at the end or before a
final newline, so a trailing fence (plus the whitespace run before it) is
removed in exactly these two shapes; the subsequent `.strip()` is fused in. -/
def dropFenceTailStrip (cs : List Char) : List Char :=
  if endsWithB "```".toList cs then pystrip ((cs.reverse.drop 3).reverse)
  else if endsWithB "```\n".toList cs then pystrip ((cs.reverse.drop 4).reverse)
  else pystrip cs

/-- `_JSON_BLOCK_RE = re.compile(r"\{.*\}", re.DOTALL)`: greedy `.*`, so
the leftmost match runs from the first brace-open to the last brace-close
of the text (a match exists iff some close follows the first open). -/
def braceSpan (cs : List Char) : Option (List Char) :=
  match cs.findIdx? (fun c => c = '\x7b'), cs.reverse.findIdx? (fun c => c = '\x7d') with
  | some f, some rj =>
    let l := cs.length - 1 - rj
    if f < l then some ((cs.drop f).take (l - f + 1)) else none
  | _, _ => none

/-- `extract_json_string(text)` from `utils/json_extract.py`. -/
def extractJsonString (text : String) : Except String String :=
  if text = "" then .error "Empty LLM output"
  else
    let s0 := pystrip text.toList
    let s := if startsWithB "```".toList s0 then dropFenceTailStrip (dropFenceHead s0) else s0
    match braceSpan s with
    | some sub => .ok (String.mk (pystrip sub))
    | none => .error "No JSON object found in LLM output"

def isJObj : Json → Bool
  | .obj _ => true
  | _ => false

/-- `parse_llm_json(text)`: returns the parsed object and the extracted
string, or raises `ValueError`. -/
def parseLlmJson (text : String) : Except String (Json × String) :=
  match extractJsonString text with
  | .error e => .error e
  | .ok jsonStr =>
    match jsonLoads jsonStr with
    | .error e => .error ("Invalid JSON after extraction: " ++ e)
    | .ok v =>
      if isJObj v then .ok (v, jsonStr)
      else .error "Parsed JSON is not an object/dict"

/-- The parse-related slots of the `answer_with_rag` result: the
`try/except` around `parse_llm_json` never lets the error escape. -/
structure ParseOutcome where
  structured_output : Option Json
  llm_json_string : Option String
  parse_error : Option String
  llm_raw : String
deriving Repr

def pipelineParse (llmAnswer : String) : ParseOutcome :=
  match parseLlmJson llmAnswer with
  | .ok p => { structured_output := some p.1, llm_json_string := some p.2,
               parse_error := none, llm_raw := llmAnswer }
  | .error e => { structured_output := none, llm_json_string := none,
                  parse_error := some e, llm_raw := llmAnswer }

/-- Spec-side reading (for comparison with the code): the FIRST BALANCED
`{...}` substring, by brace-depth counting from the first open brace. -/
def firstBalancedGo : ℕ → List Char → List Char → Option (List Char)
  | _, _, [] => none
  | depth, acc, c :: rest =>
    if c = '\x7b' then firstBalancedGo (depth + 1) (c :: acc) rest
    else if c = '\x7d' then
      if depth = 1 then some (c :: acc).reverse
      else firstBalancedGo (depth - 1) (c :: acc) rest
    else firstBalancedGo depth (c :: acc) rest

def specFirstBalanced : List Char → Option (List Char)
  | [] => none
  | c :: rest =>
    if c = '\x7b' then firstBalancedGo 1 [c] rest else specFirstBalanced rest

/-- The claim's extraction: same strip/fence handling, then the first
balanced object. -/
def specExtract (text : String) : Option String :=
  if text = "" then none
  else
    let s0 := pystrip text.toList
    let s := if startsWithB "```".toList s0 then dropFenceTailStrip (dropFenceHead s0) else s0
    (specFirstBalanced s).map (fun l => String.mk (pystrip l))

/-! ## The reasoning pipeline (`answer_with_rag`, `rag/rag_pipeline.py`)

The two external effects are parameters: `gen` is `ask_ollama` (an HTTP
call whose failure — unreachable service, non-2xx via `raise_for_status`,
timeout — is a raised exception, i.e. `Except.error`), and `qvec` is the
normalized sentence-transformer embedding of the question. `answer_with_rag`
wraps ONLY `parse_llm_json` in `try/except`; the `ask_ollama` call is
outside it, so its exception propagates to the caller. -/

/-- One entry of the `retrieved` list of the result dict. -/
structure RetrievedItem where
  id : String
  score : ℚ
  chunk : String
deriving Repr, DecidableEq

/-- The result dict of `answer_with_rag` (`confidence` carries
`round(confidence, 3)`). -/
structure PipelineResult where
  question : String
  top_k : ℕ
  confidence : ℚ
  risk : RiskResult
  retrieved : List RetrievedItem
  llm_raw : String
  llm_json_string : Option String
  structured_output : Option Json
  parse_error : Option String
deriving Repr

/-- `f"{score:.3f}"`; decimal rendering is abbreviated to the rational's
display — the prompt string is opaque to every theorem, since the
generation function is universally quantified. -/
def fmt3 (q : ℚ) : String := toString (round3 q)

/-- The `[C{i}] (similarity=...) {chunk}` blocks, or `NO_CONTEXT_FOUND`. -/
def contextOf (retrieved : List (String × ℚ)) : String :=
  let blocks := retrieved.enum.map (fun p =>
    "[C" ++ toString (p.1 + 1) ++ "] (similarity=" ++ fmt3 p.2.2 ++ ") " ++ p.2.1)
  if blocks.isEmpty then "NO_CONTEXT_FOUND" else String.intercalate "\n\n" blocks

/-- The prompt f-string of `answer_with_rag`; the long static instruction
text is abridged (it cannot influence any theorem, `gen` being
arbitrary). -/
def mkPrompt (question : String) (retrieved : List (String × ℚ)) : String :=
  "You are a compliance assistant for GRC and audit support. (static rules)" ++
  " Only use [C1]..[C" ++ toString retrieved.length ++ "]." ++
  "\n\nPolicy Context:\n" ++ contextOf retrieved ++
  "\n\nQuestion: " ++ question ++
  "\n\nReturn ONLY valid JSON in this exact schema: (schema)"

/-- `answer_with_rag(question, store, top_k)` from `rag/rag_pipeline.py`. -/
def answerWithRag (gen : String → Except String String) (qvec : List ℚ)
    (question : String) (store : FaissStore) (top_k : ℕ) :
    Except String PipelineResult :=
  let raw := faissSearch store qvec (top_k * 3)
  let retrieved := dedupTake top_k raw
  let prompt := mkPrompt question retrieved
  let confidence := computeConfidence retrieved
  let risk := computeRiskScore (inferRiskInputs question confidence)
  match gen prompt with
  | .error e => .error e
  | .ok llmAnswer =>
    let po := pipelineParse llmAnswer
    .ok { question := question
          top_k := top_k
          confidence := round3 confidence
          risk := risk
          retrieved := retrieved.enum.map (fun p =>
            { id := "C" ++ toString (p.1 + 1), score := p.2.2, chunk := p.2.1 })
          llm_raw := po.llm_raw
          llm_json_string := po.llm_json_string
          structured_output := po.structured_output
          parse_error := po.parse_error }

/-! ## Audit-report assembly (`rag/audit_report.py`)

`build_audit_report(query_result, policy_filename)` reads the result dict
with `.get`, so every slot is optional. `uuid4()` and
`datetime.now(timezone.utc)` are nondeterministic inputs, passed as
parameters. The `or` chains use Python truthiness. -/

/-- Python truthiness of a JSON value. -/
def jsonTruthy : Json → Bool
  | .null => false
  | .bool b => b
  | .num q => decide (q ≠ 0)
  | .str s => decide (s ≠ "")
  | .arr l => !l.isEmpty
  | .obj l => !l.isEmpty

/-- Python dict lookup on parsed-object members (duplicate keys:
last wins). -/
def dictGet (l : List (String × Json)) (k : String) : Option Json :=
  (l.reverse.find? (fun p => p.1 = k)).map (fun p => p.2)

/-- The dict slots `build_audit_report` reads from its `query_result`
argument (a missing key is `none`; `structured_output` holds the members
of the parsed object — `parse_llm_json` guarantees an object when it
succeeds). -/
structure QueryResult where
  question : Option String
  compliance_status : Option String
  confidence : Option ℚ
  risk : Option RiskResult
  structured_output : Option (List (String × Json))
  retrieved : List RetrievedItem
  llm_raw : Option String
  llm_json_string : Option String
  parse_error : Option String

/-- The `review_workflow` sub-dict. -/
structure ReviewWorkflow where
  owner : String
  status : String
  reviewer : Option String
  review_notes : Option String
deriving Repr, DecidableEq

/-- The report dict returned by `build_audit_report`. -/
structure AuditReportD where
  report_id : String
  generated_at_utc : String
  policy_source : String
  question : Option String
  compliance_status : Json
  confidence : Option ℚ
  risk : Option RiskResult
  explanation : Json
  evidence : Json
  recommended_mitigation : Json
  missing_information : Json
  evidence_chunks : List (String × ℚ)
  llm_raw : Option String
  llm_json_string : Option String
  parse_error : Option String
  review_workflow : ReviewWorkflow

/-- `build_audit_report` from `rag/audit_report.py`. -/
def buildAuditReport (reportId nowUtc : String) (qr : QueryResult)
    (policyFilename : Option String) : AuditReportD :=
  let structured := qr.structured_output.getD []
  let fromTop : Json :=
    match qr.compliance_status with
    | some s => if s ≠ "" then Json.str s else Json.str "Unknown"
    | none => Json.str "Unknown"
  let compliance_status : Json :=
    match dictGet structured "compliance_status" with
    | some v => if jsonTruthy v then v else fromTop
    | none => fromTop
  { report_id := reportId
    generated_at_utc := nowUtc
    policy_source :=
      (match policyFilename with
       | some s => if s ≠ "" then s else "unknown"
       | none => "unknown")
    question := qr.question
    compliance_status := compliance_status
    confidence := qr.confidence
    risk := qr.risk
    explanation := (dictGet structured "explanation").getD (Json.arr [])
    evidence := (dictGet structured "evidence").getD (Json.arr [])
    recommended_mitigation := (dictGet structured "recommended_mitigation").getD (Json.arr [])
    missing_information := (dictGet structured "missing_information").getD (Json.arr [])
    evidence_chunks := qr.retrieved.map (fun r => (r.id, r.score))
    llm_raw := qr.llm_raw
    llm_json_string := qr.llm_json_string
    parse_error := qr.parse_error
    review_workflow :=
      { owner := "GRC", status := "Needs Review", reviewer := none, review_notes := none } }

/-- The dict `answer_with_rag` returns, viewed through the `.get` calls of
`build_audit_report` (no top-level `compliance_status` key exists there). -/
def toQueryResult (p : PipelineResult) : QueryResult :=
  { question := some p.question
    compliance_status := none
    confidence := some p.confidence
    risk := some p.risk
    structured_output :=
      (match p.structured_output with
       | some (.obj l) => some l
       | _ => none)
    retrieved := p.retrieved
    llm_raw := some p.llm_raw
    llm_json_string := p.llm_json_string
    parse_error := p.parse_error }

/-! ## Event evaluation (`evaluate_event`, `routes/grc_routes.py`)

The `STATS` counters and the database write (`save_report_to_db`) are side
effects that no claim mentions; they are dropped from the model. -/

/-- `None` rendered inside an f-string. -/
def optStr : Option String → String
  | some s => s
  | none => "None"

/-- The dynamically built compliance question of `evaluate_event`. -/
def mkQuestion (ev : Event) : String :=
  "\nIs the following activity compliant with HIPAA?\nAction: " ++ optStr ev.action ++
  "\nMessage: " ++ optStr ev.message ++ "\nTime: " ++ optStr ev.timestamp ++ "\n"

/-- Step 2 of `evaluate_event`: anomaly scoring, or the no-model fallback
dict `is_anomaly=False, anomaly_score=None`. -/
def anomalyOf (model : Option AnomModel) (ev : Event) (phi : PhiResult) : AnomalyOut :=
  match model with
  | some m => scoreEvent m (toVector (featurize ev phi))
  | none => { is_anomaly := false, normality := none, anomaly_score := none }

/-- The two response dicts `evaluate_event` can return. -/
inductive EvalResp where
  | notEscalated (phi : PhiResult) (anomaly : AnomalyOut) (reason : String)
  | escalated (phi : PhiResult) (anomaly : AnomalyOut) (report_id : String)
      (compliance_status : Json) (risk : Option RiskResult)

/-- `evaluate_event(event)` from `routes/grc_routes.py`; `embed` is the
question embedder used inside `answer_with_rag`. -/
def evaluateEvent (gen : String → Except String String) (embed : String → List ℚ)
    (reportId nowUtc : String) (store : FaissStore) (model : Option AnomModel)
    (ev : Event) : Except String EvalResp :=
  let phi := detectPhi (ev.message.getD "").toList
  let anomaly := anomalyOf model ev phi
  let shouldEscalate := phi.has_phi || anomaly.is_anomaly
  if !shouldEscalate then
    .ok (.notEscalated phi anomaly "No PHI and no anomaly detected")
  else
    let question := mkQuestion ev
    match answerWithRag gen (embed question) question store 5 with
    | .error e => .error e
    | .ok ragResult =>
      let report :=
        buildAuditReport reportId nowUtc (toQueryResult ragResult) (some "privacysummary.pdf")
      .ok (.escalated phi anomaly report.report_id report.compliance_status report.risk)

/-! ## Helper lemmas: rounding and clamping -/

theorem pyRound_bounds (x : ℚ) : ⌊x⌋ ≤ pyRound x ∧ pyRound x ≤ ⌊x⌋ + 1 := by
  unfold pyRound
  split_ifs <;> omega

theorem pyRound_intCast (n : ℤ) : pyRound (n : ℚ) = n := by
  unfold pyRound
  simp [Int.floor_intCast]

theorem pyRound_mono : Monotone pyRound := by
  intro x y h
  rcases lt_or_le ⌊x⌋ ⌊y⌋ with hf | hf
  · have h1 := (pyRound_bounds x).2
    have h2 := (pyRound_bounds y).1
    omega
  · have hf' : ⌊x⌋ = ⌊y⌋ := le_antisymm (Int.floor_le_floor h) hf
    have hr : x - (⌊x⌋ : ℚ) ≤ y - (⌊y⌋ : ℚ) := by
      rw [← hf']; linarith
    unfold pyRound
    rw [hf']
    split_ifs <;> first | omega | linarith

theorem round2_mono : Monotone round2 := by
  intro x y h
  unfold round2
  have h1 : pyRound (x * 100) ≤ pyRound (y * 100) := pyRound_mono (by nlinarith)
  have h2 : ((pyRound (x * 100) : ℚ)) ≤ ((pyRound (y * 100) : ℚ)) := by exact_mod_cast h1
  linarith

/-- `round(x, 2)` is the identity on rationals that are integer hundredths
(in particular on every one-decimal score `base * 0.8`). -/
theorem round2_intMul (x : ℚ) (n : ℤ) (h : x * 100 = (n : ℚ)) : round2 x = x := by
  unfold round2
  rw [h, pyRound_intCast]
  field_simp at h ⊢
  linarith

theorem round2_zero : round2 0 = 0 := by norm_num [round2, pyRound]

theorem round2_hundred : round2 100 = 100 := by norm_num [round2, pyRound]

theorem clampQ_le_of_le {v₁ v₂ lo hi : ℚ} (h : v₁ ≤ v₂) :
    clampQ v₁ lo hi ≤ clampQ v₂ lo hi :=
  max_le_max le_rfl (min_le_min le_rfl h)

theorem clampQ_lo_le (v lo hi : ℚ) : lo ≤ clampQ v lo hi := le_max_left _ _

theorem clampQ_le_hi (v lo hi : ℚ) (h : lo ≤ hi) : clampQ v lo hi ≤ hi :=
  max_le h (min_le_left _ _)

theorem clampQ_eq_self {v lo hi : ℚ} (h1 : lo ≤ v) (h2 : v ≤ hi) : clampQ v lo hi = v := by
  unfold clampQ
  rw [min_eq_right h2, max_eq_right h1]

/-- Scores clamped into [0, 100] stay in [0, 100] after 2-decimal rounding. -/
theorem round2_clamp_bounds (v : ℚ) :
    0 ≤ round2 (clampQ v 0 100) ∧ round2 (clampQ v 0 100) ≤ 100 := by
  constructor
  · have := round2_mono (clampQ_lo_le v 0 100)
    rwa [round2_zero] at this
  · have := round2_mono (clampQ_le_hi v 0 100 (by norm_num))
    rwa [round2_hundred] at this

/-! ## Claim theorems -/

/-- C1 (amended). For every `RiskInputs` with severity, sensitivity,
frequency in 1..5 and confidence in [0, 1], `compute_risk_score` returns
`compliance_risk.score = clamp(severity*sensitivity*frequency/125*100, 0, 100)`
exactly (the 2-decimal rounding the code applies is the identity there),
`review_priority.score = round((1 - confidence)*100, 2)` — the 2-decimal
rounding of the claim's clamp formula — and assigns the levels
Critical/High/Medium/Low at thresholds 75/50/25 to each UNROUNDED clamped
score. -/
theorem C1_risk_synthesizer (i : RiskInputs)
    (hsev : 1 ≤ i.severity ∧ i.severity ≤ 5)
    (hsen : 1 ≤ i.sensitivity ∧ i.sensitivity ≤ 5)
    (hfreq : 1 ≤ i.frequency ∧ i.frequency ≤ 5)
    (hconf : 0 ≤ i.confidence ∧ i.confidence ≤ 1) :
    (computeRiskScore i).compliance_risk.score
        = clampQ (((i.severity : ℚ) * (i.sensitivity : ℚ) * (i.frequency : ℚ)) / 125 * 100) 0 100
    ∧ (computeRiskScore i).review_priority.score
        = round2 (clampQ ((1 - i.confidence) * 100) 0 100)
    ∧ (computeRiskScore i).compliance_risk.level
        = levelOf (clampQ (((i.severity : ℚ) * (i.sensitivity : ℚ) * (i.frequency : ℚ)) / 125 * 100) 0 100)
    ∧ (computeRiskScore i).review_priority.level
        = levelOf (clampQ ((1 - i.confidence) * 100) 0 100)
    ∧ (∀ s : ℚ, levelOf s =
        if s ≥ 75 then "Critical" else if s ≥ 50 then "High"
        else if s ≥ 25 then "Medium" else "Low") := by
  obtain ⟨hs1, hs2⟩ := hsev
  obtain ⟨hn1, hn2⟩ := hsen
  obtain ⟨hf1, hf2⟩ := hfreq
  obtain ⟨hc1, hc2⟩ := hconf
  have hccl : clampQ i.confidence 0 1 = i.confidence := clampQ_eq_self hc1 hc2
  have hb1 : (1 : ℤ) ≤ i.severity * i.sensitivity := by nlinarith
  have hb2 : i.severity * i.sensitivity ≤ 25 := by nlinarith
  have hb3 : (1 : ℤ) ≤ i.severity * i.sensitivity * i.frequency := by nlinarith
  have hb4 : i.severity * i.sensitivity * i.frequency ≤ 125 := by nlinarith
  have hq3 : (1 : ℚ) ≤ (i.severity : ℚ) * (i.sensitivity : ℚ) * (i.frequency : ℚ) := by
    exact_mod_cast hb3
  have hq4 : (i.severity : ℚ) * (i.sensitivity : ℚ) * (i.frequency : ℚ) ≤ 125 := by
    exact_mod_cast hb4
  have hlo : (0 : ℚ) ≤ ((i.severity : ℚ) * (i.sensitivity : ℚ) * (i.frequency : ℚ)) / 125 * 100 := by
    nlinarith
  have hhi : ((i.severity : ℚ) * (i.sensitivity : ℚ) * (i.frequency : ℚ)) / 125 * 100 ≤ 100 := by
    nlinarith
  have hcl : clampQ (((i.severity : ℚ) * (i.sensitivity : ℚ) * (i.frequency : ℚ)) / 125 * 100) 0 100
      = ((i.severity : ℚ) * (i.sensitivity : ℚ) * (i.frequency : ℚ)) / 125 * 100 :=
    clampQ_eq_self hlo hhi
  have hint : (((i.severity : ℚ) * (i.sensitivity : ℚ) * (i.frequency : ℚ)) / 125 * 100) * 100
      = ((80 * (i.severity * i.sensitivity * i.frequency) : ℤ) : ℚ) := by
    push_cast
    ring
  refine ⟨?_, ?_, ?_, ?_, fun s => rfl⟩
  · show round2 (clampQ (((i.severity : ℚ) * (i.sensitivity : ℚ) * (i.frequency : ℚ)) / 125 * 100) 0 100)
      = clampQ (((i.severity : ℚ) * (i.sensitivity : ℚ) * (i.frequency : ℚ)) / 125 * 100) 0 100
    rw [hcl]
    exact round2_intMul _ _ hint
  · show round2 (clampQ ((1 - clampQ i.confidence 0 1) * 100) 0 100)
      = round2 (clampQ ((1 - i.confidence) * 100) 0 100)
    rw [hccl]
  · show levelOf (clampQ (((i.severity : ℚ) * (i.sensitivity : ℚ) * (i.frequency : ℚ)) / 125 * 100) 0 100)
      = levelOf (clampQ (((i.severity : ℚ) * (i.sensitivity : ℚ) * (i.frequency : ℚ)) / 125 * 100) 0 100)
    rfl
  · show levelOf (clampQ ((1 - clampQ i.confidence 0 1) * 100) 0 100)
      = levelOf (clampQ ((1 - i.confidence) * 100) 0 100)
    rw [hccl]

/-- C1 witness: the spec's scenario `(4, 5, 3, 0.9)` satisfies the
hypotheses, and the scores/levels are 48.0 Medium and 10.0 Low. -/
theorem C1_risk_synthesizer_witness :
    ((computeRiskScore ⟨4, 5, 3, 9/10⟩).compliance_risk.score
        = clampQ ((((4 : ℤ) : ℚ) * ((5 : ℤ) : ℚ) * ((3 : ℤ) : ℚ)) / 125 * 100) 0 100
      ∧ (computeRiskScore ⟨4, 5, 3, 9/10⟩).review_priority.score
        = round2 (clampQ ((1 - 9/10) * 100) 0 100)
      ∧ (computeRiskScore ⟨4, 5, 3, 9/10⟩).compliance_risk.level
        = levelOf (clampQ ((((4 : ℤ) : ℚ) * ((5 : ℤ) : ℚ) * ((3 : ℤ) : ℚ)) / 125 * 100) 0 100)
      ∧ (computeRiskScore ⟨4, 5, 3, 9/10⟩).review_priority.level
        = levelOf (clampQ ((1 - 9/10) * 100) 0 100)
      ∧ (∀ s : ℚ, levelOf s =
          if s ≥ 75 then "Critical" else if s ≥ 50 then "High"
          else if s ≥ 25 then "Medium" else "Low"))
    ∧ (computeRiskScore ⟨4, 5, 3, 9/10⟩).compliance_risk = ⟨48, "Medium"⟩
    ∧ (computeRiskScore ⟨4, 5, 3, 9/10⟩).review_priority = ⟨10, "Low"⟩ :=
  ⟨C1_risk_synthesizer ⟨4, 5, 3, 9/10⟩ (by norm_num) (by norm_num) (by norm_num) (by norm_num),
   by norm_num [computeRiskScore, clampQ, round2, round3, pyRound, levelOf],
   by norm_num [computeRiskScore, clampQ, round2, round3, pyRound, levelOf]⟩

/-- C1 counterexample. At inputs `(3, 3, 3, 0.25004)` the code returns
`review_priority.score = 75.0` (the 2-decimal rounding of 74.996), not the
claim's clamp value 74.996, and its level is "High" (computed from the
unrounded 74.996) although the returned score is ≥ 75, where the claim
requires "Critical". -/
theorem C1_counterexample :
    (computeRiskScore ⟨3, 3, 3, 25004/100000⟩).review_priority.score = 75
    ∧ ¬((computeRiskScore ⟨3, 3, 3, 25004/100000⟩).review_priority.score
        = clampQ ((1 - 25004/100000) * 100) 0 100)
    ∧ (computeRiskScore ⟨3, 3, 3, 25004/100000⟩).review_priority.score ≥ 75
    ∧ (computeRiskScore ⟨3, 3, 3, 25004/100000⟩).review_priority.level ≠ "Critical" := by
  refine ⟨?_, ?_, ?_, ?_⟩ <;>
    norm_num [computeRiskScore, clampQ, round2, round3, pyRound, levelOf]
  decide

/-- C6 (amended). `score_event` maps the model's normality scalar to
`anomaly_score = round(clamp((0.5 - normality) * 100, 0, 100), 2)` — the
code rounds the claim's clamp formula to 2 decimals — and this score is
monotonically non-increasing in normality and lies in [0, 100] for every
normality value. -/
theorem C6_anomaly_score (m : AnomModel) (vec : List ℚ) :
    (scoreEvent m vec).anomaly_score = some (anomalyScoreOf (m.decision vec))
    ∧ (∀ n₁ n₂ : ℚ, n₁ ≤ n₂ → anomalyScoreOf n₂ ≤ anomalyScoreOf n₁)
    ∧ (∀ n : ℚ, 0 ≤ anomalyScoreOf n ∧ anomalyScoreOf n ≤ 100) := by
  refine ⟨rfl, ?_, ?_⟩
  · intro n₁ n₂ h
    unfold anomalyScoreOf
    exact round2_mono (clampQ_le_of_le (by linarith))
  · intro n
    exact round2_clamp_bounds _

/-- C6 counterexample. For a model whose `decision_function` returns
normality 1/512 = 0.001953125 (an exact binary float), the returned
`anomaly_score` is 49.8 (two decimals), while the claim's clamp formula
gives 49.8046875. -/
theorem C6_counterexample :
    (scoreEvent ⟨fun _ => 1/512, fun _ => 1⟩ []).anomaly_score = some (249/5)
    ∧ ((249 : ℚ)/5) ≠ clampQ ((1/2 - 1/512) * 100) 0 100 := by
  refine ⟨?_, ?_⟩ <;>
    norm_num [scoreEvent, anomalyScoreOf, clampQ, round2, pyRound]

/-- Non-emptiness of a filtered list is `any`. -/
theorem not_isEmpty_filter {α : Type} (p : α → Bool) (l : List α) :
    (!(l.filter p).isEmpty) = l.any p := by
  induction l with
  | nil => rfl
  | cons a t ih =>
    by_cases h : p a <;> simp [List.filter_cons, h, ← ih]

/-- C2 (confirmed). `detect_phi` is a total function on texts; its
`sensitivity` is 5 if the SSN or MRN pattern matched, else 4 if any
structural pattern matched, else 3 if only a keyword matched, else 1;
`has_phi` is true iff some pattern or keyword matched; and the message
"patient SSN 123-45-6789 logged" yields `has_phi = true` and
`sensitivity = 5`. -/
theorem C2_detect_phi :
    (∀ text : List Char,
      (detectPhi text).has_phi
        = (emailFound text || phoneFound text || ssnFound text || dobFound text || mrnFound text
            || PHI_KEYWORDS.any (fun k => containsB k.toList (pyLower text)))
      ∧ (detectPhi text).sensitivity
        = (if ssnFound text || mrnFound text then 5
           else if emailFound text || phoneFound text || ssnFound text || dobFound text
              || mrnFound text then 4
           else if PHI_KEYWORDS.any (fun k => containsB k.toList (pyLower text)) then 3
           else 1))
    ∧ (detectPhi "patient SSN 123-45-6789 logged".toList).has_phi = true
    ∧ (detectPhi "patient SSN 123-45-6789 logged".toList).sensitivity = 5 := by
  refine ⟨fun text => ⟨?_, ?_⟩, by decide, by decide⟩ <;>
    simp [detectPhi, not_isEmpty_filter]

/-! ### De-duplication loop lemmas -/

theorem dedupGo_sublist (k : ℕ) (l : List (String × ℚ)) :
    ∀ kept seen, (dedupGo k kept seen l).Sublist l := by
  induction l with
  | nil => intro kept seen; simp [dedupGo]
  | cons hd tl ih =>
    intro kept seen
    obtain ⟨c, s⟩ := hd
    unfold dedupGo
    split_ifs with h1 h2
    · exact (ih kept seen).cons _
    · exact (List.nil_sublist tl).cons₂ _
    · exact (ih (kept + 1) (pystrip c.toList :: seen)).cons₂ _

theorem dedupGo_length (k : ℕ) (l : List (String × ℚ)) :
    ∀ kept seen, kept < k → (dedupGo k kept seen l).length + kept ≤ k := by
  induction l with
  | nil => intro kept seen h; simp [dedupGo]; omega
  | cons hd tl ih =>
    intro kept seen h
    obtain ⟨c, s⟩ := hd
    unfold dedupGo
    split_ifs with h1 h2
    · exact ih kept seen h
    · simp; omega
    · have h3 : kept + 1 < k := by omega
      have := ih (kept + 1) (pystrip c.toList :: seen) h3
      simp at this ⊢
      omega

theorem dedupGo_mem_not_seen (k : ℕ) (l : List (String × ℚ)) :
    ∀ kept seen x, x ∈ dedupGo k kept seen l →
      seen.contains (pystrip x.1.toList) = false := by
  induction l with
  | nil => intro kept seen x hx; simp [dedupGo] at hx
  | cons hd tl ih =>
    intro kept seen x hx
    obtain ⟨c, s⟩ := hd
    unfold dedupGo at hx
    split_ifs at hx with h1 h2
    · exact ih kept seen x hx
    · have hx' : x = (c, s) := by simpa using hx
      subst hx'
      simpa using h1
    · rcases List.mem_cons.mp hx with hx' | hx'
      · subst hx'
        simpa using h1
      · have := ih (kept + 1) (pystrip c.toList :: seen) x hx'
        simp only [List.contains_cons, Bool.or_eq_false_iff] at this
        exact this.2

theorem dedupGo_pairwise (k : ℕ) (l : List (String × ℚ)) :
    ∀ kept seen, (dedupGo k kept seen l).Pairwise
      (fun a b => pystrip a.1.toList ≠ pystrip b.1.toList) := by
  induction l with
  | nil => intro kept seen; simp [dedupGo]
  | cons hd tl ih =>
    intro kept seen
    obtain ⟨c, s⟩ := hd
    unfold dedupGo
    split_ifs with h1 h2
    · exact ih kept seen
    · simp
    · refine List.Pairwise.cons ?_ (ih (kept + 1) (pystrip c.toList :: seen))
      intro y hy
      have := dedupGo_mem_not_seen k tl (kept + 1) (pystrip c.toList :: seen) y hy
      simp only [List.contains_cons, Bool.or_eq_false_iff, beq_eq_false_iff_ne] at this
      exact fun hcy => this.1 hcy.symm

/-! ### Stable descending sort lemmas -/

theorem insertDesc_mem (x z : ℕ × ℚ) (l : List (ℕ × ℚ)) (h : z ∈ insertDesc x l) :
    z = x ∨ z ∈ l := by
  induction l with
  | nil => simpa [insertDesc] using h
  | cons y ys ih =>
    unfold insertDesc at h
    split_ifs at h with h1
    · rcases List.mem_cons.mp h with h' | h'
      · exact Or.inr (by simp [h'])
      · rcases ih h' with h'' | h''
        · exact Or.inl h''
        · exact Or.inr (List.mem_cons_of_mem _ h'')
    · rcases List.mem_cons.mp h with h' | h'
      · exact Or.inl h'
      · exact Or.inr h'

theorem insertDesc_pairwise (x : ℕ × ℚ) (l : List (ℕ × ℚ))
    (h : l.Pairwise (fun a b => b.2 ≤ a.2)) :
    (insertDesc x l).Pairwise (fun a b => b.2 ≤ a.2) := by
  induction l with
  | nil => simp [insertDesc]
  | cons y ys ih =>
    rcases List.pairwise_cons.mp h with ⟨hy, hys⟩
    unfold insertDesc
    split_ifs with h1
    · refine List.pairwise_cons.mpr ⟨?_, ih hys⟩
      intro z hz
      rcases insertDesc_mem x z ys hz with h' | h'
      · subst h'; exact h1
      · exact hy z h'
    · refine List.pairwise_cons.mpr ⟨?_, h⟩
      intro z hz
      rcases List.mem_cons.mp hz with h' | h'
      · subst h'; linarith [lt_of_not_le h1]
      · exact le_trans (hy z h') (by linarith [lt_of_not_le h1])

theorem sortDesc_pairwise (l : List (ℕ × ℚ)) :
    (sortDesc l).Pairwise (fun a b => b.2 ≤ a.2) := by
  induction l with
  | nil => simp [sortDesc]
  | cons x xs ih => exact insertDesc_pairwise x (sortDesc xs) ih

/-- `FaissStore.search` returns its results in descending score order. -/
theorem faissSearch_sorted (st : FaissStore) (q : List ℚ) (k : ℕ) :
    (faissSearch st q k).Pairwise (fun a b => b.2 ≤ a.2) := by
  unfold faissSearch
  rw [List.pairwise_map]
  exact ((sortDesc_pairwise _).sublist (List.take_sublist _ _))

theorem enum_map_mk_chunks (l : List (String × ℚ)) :
    ((l.enum.map (fun p =>
        ({ id := "C" ++ toString (p.1 + 1), score := p.2.2, chunk := p.2.1 } : RetrievedItem))).map
      (fun r => (r.chunk, r.score))) = l := by
  rw [List.map_map]
  have h : ((fun r : RetrievedItem => (r.chunk, r.score)) ∘
      (fun p : ℕ × String × ℚ =>
        ({ id := "C" ++ toString (p.1 + 1), score := p.2.2, chunk := p.2.1 } : RetrievedItem)))
      = Prod.snd := rfl
  rw [h, List.enum_map_snd]

theorem enum_map_mk_ids (l : List (String × ℚ)) :
    ((l.enum.map (fun p =>
        ({ id := "C" ++ toString (p.1 + 1), score := p.2.2, chunk := p.2.1 } : RetrievedItem))).map
      (fun r => r.id))
    = (List.range l.length).map (fun i => "C" ++ toString (i + 1)) := by
  rw [List.map_map, ← List.enum_map_fst l, List.map_map]
  rfl

/-- C3 (confirmed; stated for `top_k ≥ 1`, the pipeline's parameter space —
`answer_with_rag` defaults to 5 and every caller passes 5). The retrieval
step queries `3 * top_k` candidates, removes every candidate whose
stripped text equals that of an earlier kept candidate, preserves the
descending-similarity order (the kept list is a sublist of the raw
descending-sorted candidates), truncates to at most `top_k`, never keeps
two entries with identical stripped text, and the pipeline result labels
the kept chunks with contiguous citation ids C1..Ck. -/
theorem C3_retrieval_dedup (st : FaissStore) (qvec : List ℚ) (top_k : ℕ)
    (h : 1 ≤ top_k) :
    retrieveStep st qvec top_k = dedupTake top_k (faissSearch st qvec (top_k * 3))
    ∧ (retrieveStep st qvec top_k).Sublist (faissSearch st qvec (top_k * 3))
    ∧ (retrieveStep st qvec top_k).length ≤ top_k
    ∧ (retrieveStep st qvec top_k).Pairwise
        (fun a b => pystrip a.1.toList ≠ pystrip b.1.toList)
    ∧ (retrieveStep st qvec top_k).Pairwise (fun a b => b.2 ≤ a.2)
    ∧ (∀ gen q pr, answerWithRag gen qvec q st top_k = Except.ok pr →
        pr.retrieved.map (fun r => (r.chunk, r.score)) = retrieveStep st qvec top_k
        ∧ pr.retrieved.map (fun r => r.id)
            = (List.range (retrieveStep st qvec top_k).length).map
                (fun i => "C" ++ toString (i + 1))) := by
  refine ⟨rfl, dedupGo_sublist _ _ 0 [], ?_, dedupGo_pairwise _ _ 0 [], ?_, ?_⟩
  · have := dedupGo_length top_k (faissSearch st qvec (top_k * 3)) 0 [] (by omega)
    simpa using this
  · exact (faissSearch_sorted st qvec (top_k * 3)).sublist (dedupGo_sublist _ _ 0 [])
  · intro gen q pr heq
    unfold answerWithRag at heq
    dsimp only at heq
    split at heq
    · exact absurd heq (by simp)
    · simp only [Except.ok.injEq] at heq
      subst heq
      exact ⟨enum_map_mk_chunks _, enum_map_mk_ids _⟩

/-- A concrete store for the C3 witness: two distinct chunks share the
stripped text "dup". -/
def c3Store : FaissStore :=
  { dim := 2, index := [[1, 0], [0, 1], [1, 0]], chunks := ["dup", "uniq", "dup "] }

/-- C3 witness: `top_k = 1` on a store holding duplicate chunks. -/
theorem C3_retrieval_dedup_witness :
    1 ≤ 1
    ∧ (retrieveStep c3Store [1, 0] 1 = dedupTake 1 (faissSearch c3Store [1, 0] (1 * 3))
      ∧ (retrieveStep c3Store [1, 0] 1).Sublist (faissSearch c3Store [1, 0] (1 * 3))
      ∧ (retrieveStep c3Store [1, 0] 1).length ≤ 1
      ∧ (retrieveStep c3Store [1, 0] 1).Pairwise
          (fun a b => pystrip a.1.toList ≠ pystrip b.1.toList)
      ∧ (retrieveStep c3Store [1, 0] 1).Pairwise (fun a b => b.2 ≤ a.2)
      ∧ (∀ gen q pr, answerWithRag gen [1, 0] q c3Store 1 = Except.ok pr →
          pr.retrieved.map (fun r => (r.chunk, r.score)) = retrieveStep c3Store [1, 0] 1
          ∧ pr.retrieved.map (fun r => r.id)
              = (List.range (retrieveStep c3Store [1, 0] 1).length).map
                  (fun i => "C" ++ toString (i + 1)))) :=
  ⟨le_refl 1, C3_retrieval_dedup c3Store [1, 0] 1 (le_refl 1)⟩

/-- C4 (amended). Response parsing never escapes the pipeline boundary:
for every generation text the parse step returns a total outcome with the
raw text preserved; it succeeds — structured object and extracted string,
null error — exactly when the span from the first `\x7b` to the LAST
`\x7d` (the code's greedy regex, not the claim's "first balanced" object)
of the fence-stripped text decodes to a JSON object; in every other case
`structured_output` is null and `parse_error` is a non-null text. -/
theorem C4_parse_boundary (t : String) :
    (pipelineParse t).llm_raw = t
    ∧ ((pipelineParse t).parse_error = none ↔
        ∃ s j, extractJsonString t = Except.ok s ∧ jsonLoads s = Except.ok j ∧ isJObj j = true)
    ∧ (∀ s j, extractJsonString t = Except.ok s → jsonLoads s = Except.ok j →
        isJObj j = true →
        pipelineParse t = { structured_output := some j, llm_json_string := some s,
                            parse_error := none, llm_raw := t })
    ∧ ((pipelineParse t).structured_output = none ∨ (pipelineParse t).parse_error = none)
    ∧ ((pipelineParse t).parse_error ≠ none →
        (pipelineParse t).structured_output = none
        ∧ (pipelineParse t).llm_json_string = none) := by
  unfold pipelineParse parseLlmJson
  rcases hext : extractJsonString t with e | s0
  · simp only [hext]
    refine ⟨by trivial, ?_, ?_, Or.inl (by trivial), fun _ => ⟨by trivial, by trivial⟩⟩
    · simp
    · intro s j hs
      simp at hs
  · simp only [hext]
    rcases hload : jsonLoads s0 with e | j0
    · simp only [hload]
      refine ⟨by trivial, ?_, ?_, Or.inl (by trivial), fun _ => ⟨by trivial, by trivial⟩⟩
      · simp [hload]
      · rintro s j hs hj
        rw [Except.ok.injEq] at hs
        subst hs
        rw [hload] at hj
        simp at hj
    · simp only [hload]
      by_cases hobj : isJObj j0 = true
      · simp only [hobj, if_true]
        refine ⟨by trivial, ?_, ?_, Or.inr (by trivial), fun hne => absurd (by trivial) hne⟩
        · exact iff_of_true (by trivial) ⟨s0, j0, rfl, hload, hobj⟩
        · rintro s j hs hj hjo
          rw [Except.ok.injEq] at hs
          subst hs
          rw [hload, Except.ok.injEq] at hj
          subst hj
          rfl
      · simp only [hobj, if_false, Bool.false_eq_true]
        refine ⟨by trivial, ?_, ?_, Or.inl (by trivial), fun _ => ⟨by trivial, by trivial⟩⟩
        · simp only [Option.some_ne_none, false_iff]
          rintro ⟨s, j, hs, hj, hjo⟩
          rw [Except.ok.injEq] at hs
          subst hs
          rw [hload, Except.ok.injEq] at hj
          subst hj
          exact hobj hjo
        · rintro s j hs hj hjo
          rw [Except.ok.injEq] at hs
          subst hs
          rw [hload, Except.ok.injEq] at hj
          subst hj
          exact absurd hjo hobj

/-- C4 counterexample. For the generation text `{"a": 1} }` the FIRST
BALANCED object (the claim's extraction) is `{"a": 1}`, which decodes to a
JSON object; yet the code's greedy first-`{`-to-last-`}` span is the whole
text, which fails to decode, so the pipeline reports a parse failure
instead of returning that object. -/
theorem C4_counterexample :
    (∃ u, specExtract "\x7b\"a\": 1\x7d \x7d" = some u
      ∧ ∃ j, jsonLoads u = Except.ok j ∧ isJObj j = true)
    ∧ (pipelineParse "\x7b\"a\": 1\x7d \x7d").structured_output = none
    ∧ (pipelineParse "\x7b\"a\": 1\x7d \x7d").parse_error
        = some "Invalid JSON after extraction: Extra data" :=
  ⟨⟨"\x7b\"a\": 1\x7d", rfl, _, rfl, rfl⟩, rfl, rfl⟩

/-- C5 (amended). When the text-inference call fails (`ask_ollama` raises
for an unreachable service, a non-2xx response via `raise_for_status`, or
a timeout), `answer_with_rag` does NOT catch it — only `parse_llm_json`
sits in its `try`: the exception propagates past the pipeline boundary and
nothing computed before the call (retrieved chunks, confidence, risk) is
returned. -/
theorem C5_generation_failure_propagates (gen : String → Except String String)
    (qvec : List ℚ) (question : String) (store : FaissStore) (top_k : ℕ) (e : String)
    (hfail : gen (mkPrompt question (dedupTake top_k (faissSearch store qvec (top_k * 3))))
        = Except.error e) :
    answerWithRag gen qvec question store top_k = Except.error e := by
  unfold answerWithRag
  dsimp only
  rw [hfail]

/-- C5 witness: a generation function modelling a refused connection. -/
theorem C5_generation_failure_propagates_witness :
    (fun _ : String => (Except.error "ollama unreachable" : Except String String))
        (mkPrompt "q" (dedupTake 5 (faissSearch ⟨1, [[1]], ["c"]⟩ [1] (5 * 3))))
      = Except.error "ollama unreachable"
    ∧ answerWithRag (fun _ => Except.error "ollama unreachable") [1] "q" ⟨1, [[1]], ["c"]⟩ 5
      = Except.error "ollama unreachable" :=
  ⟨rfl, C5_generation_failure_propagates (fun _ => Except.error "ollama unreachable")
    [1] "q" ⟨1, [[1]], ["c"]⟩ 5 "ollama unreachable" rfl⟩

/-- C5 counterexample. With the inference service down, `answer_with_rag`
on a concrete store raises (`Except.error`): there is no returned pipeline
result carrying the retrieved chunks, confidence and risk, contrary to the
claim. -/
theorem C5_counterexample :
    answerWithRag (fun _ => Except.error "connection refused") [1] "q"
        ⟨1, [[1]], ["c"]⟩ 5 = Except.error "connection refused" := rfl

/-- C7 (confirmed). `evaluate_event` escalates — invokes the reasoning
pipeline and assembles a report — iff the event's PHI detection or anomaly
scoring fires: with no trained model the anomaly slot is the unavailable
fall-back (`is_anomaly = false`, score null) so sensitive-data detection
alone decides; a non-escalated event returns the no-escalation response,
and an escalated event (when generation succeeds) returns the escalated
response built from an assembled report. -/
theorem C7_escalation (gen : String → Except String String) (embed : String → List ℚ)
    (rid now : String) (store : FaissStore) (model : Option AnomModel) (ev : Event) :
    (model = none →
      anomalyOf model ev (detectPhi (ev.message.getD "").toList)
        = { is_anomaly := false, normality := none, anomaly_score := none })
    ∧ (((detectPhi (ev.message.getD "").toList).has_phi
          || (anomalyOf model ev (detectPhi (ev.message.getD "").toList)).is_anomaly) = false →
        evaluateEvent gen embed rid now store model ev
          = Except.ok (.notEscalated (detectPhi (ev.message.getD "").toList)
              (anomalyOf model ev (detectPhi (ev.message.getD "").toList))
              "No PHI and no anomaly detected"))
    ∧ (((detectPhi (ev.message.getD "").toList).has_phi
          || (anomalyOf model ev (detectPhi (ev.message.getD "").toList)).is_anomaly) = true →
        (∀ p, ∃ out, gen p = Except.ok out) →
        ∃ rpt_id cs risk, evaluateEvent gen embed rid now store model ev
          = Except.ok (.escalated (detectPhi (ev.message.getD "").toList)
              (anomalyOf model ev (detectPhi (ev.message.getD "").toList)) rpt_id cs risk)) := by
  refine ⟨fun hm => by rw [hm]; rfl, fun hno => ?_, fun hyes hgen => ?_⟩
  · unfold evaluateEvent
    dsimp only
    rw [hno]
    rfl
  · unfold evaluateEvent
    dsimp only
    rw [hyes]
    obtain ⟨out, hout⟩ := hgen (mkPrompt (mkQuestion ev)
      (dedupTake 5 (faissSearch store (embed (mkQuestion ev)) (5 * 3))))
    rcases hrag : answerWithRag gen (embed (mkQuestion ev)) (mkQuestion ev) store 5
      with e | pr
    · unfold answerWithRag at hrag
      dsimp only at hrag
      rw [hout] at hrag
      cases hrag
    · exact ⟨_, _, _, rfl⟩

/-- C8 (amended). `FaissStore.add` fails with a shape-mismatch `ValueError`
iff the embedding width differs from the store's dimension — the chunk
count is NOT validated against the number of embedding rows — and a
rejected add is raised before any state change, while an accepted add
appends rows and chunks at the end, leaving every existing entry and its
offset untouched. -/
theorem C8_add (st : FaissStore) (emb : NpMat) (chunks : List String) :
    (emb.w ≠ st.dim →
      faissAdd st emb chunks = Except.error "Embeddings must be shape (n, dim)")
    ∧ (emb.w = st.dim →
        faissAdd st emb chunks
          = Except.ok { dim := st.dim, index := st.index ++ emb.rows,
                        chunks := st.chunks ++ chunks }
        ∧ ∀ st', faissAdd st emb chunks = Except.ok st' →
            st'.index.take st.index.length = st.index
            ∧ st'.chunks.take st.chunks.length = st.chunks) := by
  constructor
  · intro hne
    unfold faissAdd
    rw [if_pos hne]
  · intro heq
    have hok : faissAdd st emb chunks
        = Except.ok { dim := st.dim, index := st.index ++ emb.rows,
                      chunks := st.chunks ++ chunks } := by
      unfold faissAdd
      rw [if_neg (by simp [heq])]
    refine ⟨hok, fun st' hst' => ?_⟩
    rw [hok, Except.ok.injEq] at hst'
    subst hst'
    exact ⟨List.take_left _ _, List.take_left _ _⟩

/-- C8 witness: a well-shaped add on a store that already holds one entry. -/
theorem C8_add_witness :
    ((2 : ℕ) = 2
    ∧ (faissAdd ⟨2, [[1, 0]], ["c0"]⟩ ⟨2, [[0, 1]], by decide⟩ ["c1"]
          = Except.ok { dim := 2, index := [[1, 0]] ++ [[0, 1]],
                        chunks := ["c0"] ++ ["c1"] }
      ∧ ∀ st', faissAdd ⟨2, [[1, 0]], ["c0"]⟩ ⟨2, [[0, 1]], by decide⟩ ["c1"] = Except.ok st' →
          st'.index.take ([[(1 : ℚ), 0]] : List (List ℚ)).length = [[1, 0]]
          ∧ st'.chunks.take (["c0"] : List String).length = ["c0"])) :=
  ⟨rfl, (C8_add ⟨2, [[1, 0]], ["c0"]⟩ ⟨2, [[0, 1]], by decide⟩ ["c1"]).2 rfl⟩

/-- C8 counterexample. Adding ONE 2-wide embedding row together with TWO
chunks to a dim-2 store succeeds — the claim requires a shape-mismatch
failure when the chunk count differs from the row count — and the store is
extended inconsistently (2 chunks vs 1 index row). -/
theorem C8_counterexample :
    faissAdd { dim := 2, index := [], chunks := [] } ⟨2, [[1, 0]], by decide⟩ ["a", "b"]
      = Except.ok { dim := 2, index := [[1, 0]], chunks := ["a", "b"] }
    ∧ (["a", "b"] : List String).length ≠ ([[(1 : ℚ), 0]] : List (List ℚ)).length :=
  ⟨rfl, by decide⟩

/-- C9 (confirmed). `save()` then `load()` into a fresh instance yields a
store whose `search` results — chunks, similarities and their order — are
identical to those of the persisted store, for every query and every
`top_k` (serialization stores the index/chunk pair losslessly, and `load`
replaces both in the receiving instance). -/
theorem C9_persist_roundtrip (st fresh : FaissStore) (q : List ℚ) (top_k : ℕ) :
    faissSearch (faissLoad (faissSave st) fresh) q top_k = faissSearch st q top_k := rfl

/-- C10 (confirmed). When `structured_output` is null (e.g. after a parse
failure), `build_audit_report` still returns a report: its
`compliance_status` falls back to the result's truthy top-level
`compliance_status` if present and to "Unknown" otherwise; explanation,
evidence, recommended_mitigation and missing_information default to empty
lists; the raw generation text and the parse error are preserved; and the
review workflow status is "Needs Review". -/
theorem C10_report_on_null_structured (rid now : String) (qr : QueryResult)
    (policy : Option String) (hnull : qr.structured_output = none) :
    (buildAuditReport rid now qr policy).compliance_status
        = (match qr.compliance_status with
           | some cs => if cs ≠ "" then Json.str cs else Json.str "Unknown"
           | none => Json.str "Unknown")
    ∧ (qr.compliance_status = none →
        (buildAuditReport rid now qr policy).compliance_status = Json.str "Unknown")
    ∧ (buildAuditReport rid now qr policy).explanation = Json.arr []
    ∧ (buildAuditReport rid now qr policy).evidence = Json.arr []
    ∧ (buildAuditReport rid now qr policy).recommended_mitigation = Json.arr []
    ∧ (buildAuditReport rid now qr policy).missing_information = Json.arr []
    ∧ (buildAuditReport rid now qr policy).llm_raw = qr.llm_raw
    ∧ (buildAuditReport rid now qr policy).parse_error = qr.parse_error
    ∧ (buildAuditReport rid now qr policy).review_workflow.status = "Needs Review" := by
  unfold buildAuditReport
  rw [hnull]
  dsimp only
  refine ⟨rfl, fun hcs => ?_, rfl, rfl, rfl, rfl, rfl, rfl, rfl⟩
  rw [hcs]
  rfl

/-- C10 witness: a query result carrying a parse failure and no top-level
compliance status. -/
theorem C10_report_on_null_structured_witness :
    ((⟨some "q", none, some 1, none, none, [], some "raw output", none,
        some "No JSON object found in LLM output"⟩ : QueryResult).structured_output = none)
    ∧ ((buildAuditReport "r1" "t1"
          ⟨some "q", none, some 1, none, none, [], some "raw output", none,
            some "No JSON object found in LLM output"⟩ (some "p.pdf")).compliance_status
        = (match (⟨some "q", none, some 1, none, none, [], some "raw output", none,
            some "No JSON object found in LLM output"⟩ : QueryResult).compliance_status with
           | some cs => if cs ≠ "" then Json.str cs else Json.str "Unknown"
           | none => Json.str "Unknown")
      ∧ ((⟨some "q", none, some 1, none, none, [], some "raw output", none,
            some "No JSON object found in LLM output"⟩ : QueryResult).compliance_status = none →
          (buildAuditReport "r1" "t1"
            ⟨some "q", none, some 1, none, none, [], some "raw output", none,
              some "No JSON object found in LLM output"⟩ (some "p.pdf")).compliance_status
            = Json.str "Unknown")
      ∧ (buildAuditReport "r1" "t1"
          ⟨some "q", none, some 1, none, none, [], some "raw output", none,
            some "No JSON object found in LLM output"⟩ (some "p.pdf")).explanation = Json.arr []
      ∧ (buildAuditReport "r1" "t1"
          ⟨some "q", none, some 1, none, none, [], some "raw output", none,
            some "No JSON object found in LLM output"⟩ (some "p.pdf")).evidence = Json.arr []
      ∧ (buildAuditReport "r1" "t1"
          ⟨some "q", none, some 1, none, none, [], some "raw output", none,
            some "No JSON object found in LLM output"⟩ (some "p.pdf")).recommended_mitigation
          = Json.arr []
      ∧ (buildAuditReport "r1" "t1"
          ⟨some "q", none, some 1, none, none, [], some "raw output", none,
            some "No JSON object found in LLM output"⟩ (some "p.pdf")).missing_information
          = Json.arr []
      ∧ (buildAuditReport "r1" "t1"
          ⟨some "q", none, some 1, none, none, [], some "raw output", none,
            some "No JSON object found in LLM output"⟩ (some "p.pdf")).llm_raw
          = (⟨some "q", none, some 1, none, none, [], some "raw output", none,
              some "No JSON object found in LLM output"⟩ : QueryResult).llm_raw
      ∧ (buildAuditReport "r1" "t1"
          ⟨some "q", none, some 1, none, none, [], some "raw output", none,
            some "No JSON object found in LLM output"⟩ (some "p.pdf")).parse_error
          = (⟨some "q", none, some 1, none, none, [], some "raw output", none,
              some "No JSON object found in LLM output"⟩ : QueryResult).parse_error
      ∧ (buildAuditReport "r1" "t1"
          ⟨some "q", none, some 1, none, none, [], some "raw output", none,
            some "No JSON object found in LLM output"⟩ (some "p.pdf")).review_workflow.status
          = "Needs Review") :=
  ⟨rfl, C10_report_on_null_structured "r1" "t1"
    ⟨some "q", none, some 1, none, none, [], some "raw output", none,
      some "No JSON object found in LLM output"⟩ (some "p.pdf") rfl⟩

end GRC
